import Mathlib

/-!
Verification of the Moon-Landing dashboard (`dash_app.py`) against its
natural-language specification.

The development shallowly embeds the data model and the request handlers of
the source file.  A mission record is one row of the CSV after the load-time
date normalization; pandas `NaN` / missing cells are modelled with `Option`,
and pandas operations that can raise are modelled with `Except String`.
Handlers that the source wraps (or fails to wrap) in `try/except` return
`Except String _`: `.error` models an exception propagating out of the
handler, `.ok` a value actually returned to Dash.
-/

namespace MoonDash

/-- Substring occurrence test on character lists: `sub` occurs somewhere in
`s`.  Models Python's `in` / `pandas.Series.str.contains` for patterns
without regex metacharacters (every pattern used by the app — country names
and first words of outcome strings — is metacharacter-free). -/
def isPfxOf : List Char → List Char → Bool
  | [], _ => true
  | _ :: _, [] => false
  | a :: as, b :: bs => a == b && isPfxOf as bs

/-- Occurrence of `sub` in `s` as a contiguous run (substring). -/
def containsSub (s sub : List Char) : Bool :=
  match s with
  | [] => isPfxOf sub []
  | _ :: rest => isPfxOf sub s || containsSub rest sub

/-- `strContains s sub` models Python's `sub in s` substring test. -/
def strContains (s sub : String) : Bool := containsSub s.data sub.data

/-- Lexicographic `≤` on character lists; models Python's string `<=`
(code-point lexicographic with the prefix rule). -/
def charListLe : List Char → List Char → Bool
  | [], _ => true
  | _ :: _, [] => false
  | a :: as, b :: bs => decide (a < b) || (a == b && charListLe as bs)

/-- Python string `<=` (used by the source to compare `strftime("%Y")`
values with `str(year)` values). -/
def pyStrLe (s t : String) : Bool := charListLe s.data t.data

/-- ASCII lower-casing of one character; models Python `str.lower` on the
ASCII strings the app compares ("CSV", "csv", ...). -/
def lowerChar (c : Char) : Char :=
  if 65 ≤ c.toNat ∧ c.toNat ≤ 90 then Char.ofNat (c.toNat + 32) else c

/-- Models Python's `str.lower()`. -/
def pyLower (s : String) : String := ⟨s.data.map lowerChar⟩

/-- The decimal digit character of `n % 10`. -/
def digitChar (n : Nat) : Char := Char.ofNat (48 + n % 10)

/-- Models `Timestamp.strftime("%Y")` (and `str(int)`) for the four-digit
years this program manipulates: every pandas `Timestamp` year lies in
1677..2262 and every validated slider year lies in the dataset's year range,
so both sides of the source's string comparison are four-digit strings. -/
def strftimeY (y : Nat) : String :=
  ⟨[digitChar (y / 1000), digitChar (y / 100), digitChar (y / 10), digitChar y]⟩

/-- First-occurrence-order deduplication, accumulator form.  Models
`pandas.Series.unique`, which keeps the first occurrence of each value in
encounter order. -/
def uniqAux [DecidableEq α] (seen : List α) : List α → List α
  | [] => []
  | x :: xs => if x ∈ seen then uniqAux seen xs else x :: uniqAux (x :: seen) xs

/-- Models `pandas.Series.unique`: distinct values in first-encounter order. -/
def uniqFirst [DecidableEq α] (l : List α) : List α := uniqAux [] l

/-- A calendar date-time, the embedding of `pandas.Timestamp`. -/
structure Date where
  year : Nat
  month : Nat
  day : Nat
  hour : Nat
  minute : Nat
  second : Nat
deriving DecidableEq

/-- Gregorian leap-year test. -/
def isLeapYear (y : Nat) : Bool := y % 4 == 0 && (y % 100 != 0 || y % 400 == 0)

/-- Days in a month of the Gregorian calendar. -/
def daysInMonth (y m : Nat) : Nat :=
  if m = 2 then (if isLeapYear y then 29 else 28)
  else if m = 4 ∨ m = 6 ∨ m = 9 ∨ m = 11 then 30
  else 31

/-- Is this a real calendar date-time (the validity `Timestamp.replace`
checks, raising `ValueError` otherwise)? -/
abbrev Date.isValid (d : Date) : Prop :=
  1 ≤ d.month ∧ d.month ≤ 12 ∧ 1 ≤ d.day ∧ d.day ≤ daysInMonth d.year d.month ∧
    d.hour < 24 ∧ d.minute < 60 ∧ d.second < 60

/-- The nanosecond `pandas.Timestamp` range at day granularity: dates from
1677-09-22 through 2262-04-11 are representable; outside it `Timestamp`
construction raises `OutOfBoundsDatetime`. -/
abbrev Date.inTsBounds (d : Date) : Prop :=
  (1677 < d.year ∨ (1677 = d.year ∧ (9 < d.month ∨ (9 = d.month ∧ 22 ≤ d.day)))) ∧
  (d.year < 2262 ∨ (d.year = 2262 ∧ (d.month < 4 ∨ (d.month = 4 ∧ d.day ≤ 11))))

/-- Models `parsed_date.replace(year=y)`: keeps every component except the
year, and raises (`none`) when the resulting date is not a valid
representable timestamp, exactly as `Timestamp.replace` raises
`ValueError` / `OutOfBoundsDatetime`. -/
def tsReplaceYear (d : Date) (y : Nat) : Option Date :=
  let d2 : Date := { d with year := y }
  if d2.isValid ∧ d2.inTsBounds then some d2 else none

/-- The date normalizer `validate_date_input` of `dash_app.py`.  Its input is
the result of `pd.to_datetime` on the free-text cell: `none` when parsing
raised (the `except ValueError` branch then yields `np.nan`, modelled as
`none`), `some d` when parsing produced the timestamp `d`.  A `ValueError`
raised by the `replace` call is caught by the same `except` and also yields
the missing marker. -/
def validate_date_input : Option Date → Option Date
  | none => none
  | some d => if 2023 < d.year then tsReplaceYear d (d.year - 100) else some d

/-- One row of the normalized in-memory table (`data` in the source):
`Launch Date` after `validate_date_input`, plus the free-text columns used
by the logic.  `none` models a pandas missing value. -/
structure MissionRecord where
  launchDate : Option Date
  operator : Option String
  missionType : Option String
  outcome : Option String
  additionalInfo : Option String
deriving DecidableEq

/-- `str.contains` applied to one cell of a free-text column, with a missing
cell giving `false` under `scalar_compare` masking semantics (used where the
source's mask is guaranteed boolean). -/
def optContains (v : Option String) (sub : String) : Bool :=
  match v with
  | some s => strContains s sub
  | none => false

/-- The error message of a pandas boolean-mask indexing raise: filtering
with `df[col.str.contains(pat)]` raises `ValueError` when the column holds a
missing value (the mask then contains `NaN`). -/
def maskErrMsg : String := "Cannot mask with non-boolean array containing NA / NaN values"

/-- `rs[rs.operator.str.contains(pat)]`: the pandas row filter by substring
match on the `Operator` column.  Raises (models the `ValueError` above) when
some row's `Operator` is missing, because the mask is then not boolean. -/
def seriesStrContainsFilter (rs : List MissionRecord) (pat : String) :
    Except String (List MissionRecord) :=
  if rs.all (fun r => r.operator.isSome) then
    .ok (rs.filter (fun r => optContains r.operator pat))
  else .error maskErrMsg

/-- The source's allow-list `allowed_countries` (line 55), sentinel first. -/
def allowed_countries : List String :=
  ["All Countries", "United States", "Soviet Union", "Japan", "European Union",
   "China", "India", "Luxembourg", "Israel", "South Korea", "Italy", "UAE", "Russia"]

/-- The source's `allowed_file_formats` (line 56). -/
def allowed_file_formats : List String := ["csv", "json", "excel"]

/-- `validate_country_input` of `dash_app.py`. -/
def validate_country_input (value : String) : String :=
  if value ∈ allowed_countries then value else "All Countries"

/-- `validate_year_range` of `dash_app.py`; `minY`/`maxY` are the module
globals `min_allowed_year`/`max_allowed_year`. -/
def validate_year_range (minY maxY s e : Nat) : Nat × Nat :=
  if minY ≤ s ∧ s ≤ maxY ∧ minY ≤ e ∧ e ≤ maxY then (s, e) else (minY, maxY)

/-- The startup table `fail = data[data.Outcome.str.contains("fail")]`
(line 79).  In every process state that serves requests the startup mask was
boolean (a missing `Outcome` would have aborted startup), so the filter is
total here. -/
def failRecords (rs : List MissionRecord) : List MissionRecord :=
  rs.filter (fun r => optContains r.outcome "fail")

/-- The characters of a list up to (excluding) the first space. -/
def firstWordL : List Char → List Char
  | [] => []
  | c :: cs => if c = ' ' then [] else c :: firstWordL cs

/-- Python's `s.split(' ')[0]`: the segment before the first space (the whole
string when it has no space, empty when it starts with one). -/
def firstWord (s : String) : String := ⟨firstWordL s.data⟩

/-- The startup list `allowed_fails` (lines 80-82): the distinct `Outcome`
values of the failure rows, in encounter order, each replaced in place by
its first word. -/
def allowed_fails (rs : List MissionRecord) : List String :=
  (uniqFirst ((failRecords rs).filterMap (fun r => r.outcome))).map firstWord

/-- `validate_fail_input` of `dash_app.py`.  Indexing `allowed_fails[0]` on
an empty list raises `IndexError`, modelled as `.error`. -/
def validate_fail_input (af : List String) (value : String) : Except String String :=
  if value ∈ af then .ok value
  else
    match af with
    | [] => .error "IndexError: index 0 is out of bounds"
    | f :: _ => .ok f

/-- Models `Series.value_counts()` on an `Outcome` column slice: the count
of each distinct non-missing value.  `value_counts` additionally presents
the pairs sorted by descending count — a display permutation that no claim
depends on — so the embedding keeps first-encounter order. -/
def value_counts (xs : List (Option String)) : List (String × Nat) :=
  (uniqFirst (xs.filterMap id)).map (fun v => (v, xs.count (some v)))

/-- Count of the rows of `df` having the given `(Mission Type, Outcome)`
pair.  `groupby('Outcome')['Mission Type'].value_counts()` drops missing
keys, and the alignment `ne[column] = ne[column] + series[column]` followed
by `fillna(0)` leaves `0` for unobserved combinations, so a cell addressed
by a missing label counts nothing. -/
def pairCount (df : List MissionRecord) (t o : Option String) : Nat :=
  match t, o with
  | some tv, some ov =>
      df.countP (fun r => r.missionType == some tv && r.outcome == some ov)
  | _, _ => 0

/-- The heatmap matrix: row labels, column labels, and the grid of cells in
row-major order. -/
structure HeatMatrix where
  rowLabels : List (Option String)
  colLabels : List (Option String)
  cells : List (List Nat)
deriving DecidableEq

/-- `create_matrix_for_heatmap` of `dash_app.py`: the label vocabulary comes
from the full table `data` (`data['Outcome'].unique()`,
`data['Mission Type'].unique()`), the counts from the filtered slice `df`.
`globalRs` embeds the module global `data`. -/
def create_matrix_for_heatmap (globalRs df : List MissionRecord) : HeatMatrix :=
  let rows := uniqFirst (globalRs.map (fun r => r.missionType))
  let cols := uniqFirst (globalRs.map (fun r => r.outcome))
  { rowLabels := rows
    colLabels := cols
    cells := rows.map (fun t => cols.map (fun o => pairCount df t o)) }

/-- Cell access in the row-major grid (out-of-range reads as 0, used only
under in-range hypotheses). -/
def cellAt (m : HeatMatrix) (i j : Nat) : Nat := ((m.cells.getD i []).getD j 0)

/-- Sum of all cells of the matrix. -/
def matrixTotal (m : HeatMatrix) : Nat := (m.cells.map (fun row => row.sum)).sum

/-- The year-range row filter of `get_charts_by_country` (lines 348-351),
exactly as the source computes it: `strftime("%Y")` of each row's
`Launch Date` compared as a *string* against `str(start)` and `str(end)`.
A missing date's `strftime` is `NaN`, and pandas object-dtype comparison
(`scalar_compare`) makes every `>=`/`<=` against `NaN` false, so such rows
are dropped. -/
def yearFilterRecords (rs : List MissionRecord) (s e : Nat) : List MissionRecord :=
  rs.filter (fun r =>
    match r.launchDate with
    | none => false
    | some d => pyStrLe (strftimeY s) (strftimeY d.year) && pyStrLe (strftimeY d.year) (strftimeY e))

/-- The `try`-wrapped year filtering step of `get_charts_by_country`.  With
a datetime-typed column (guaranteed by the load-time normalization) the step
does not raise; the source nevertheless wraps exactly this step — and only
this step — in `try/except`. -/
def tryYearFilter (rs : List MissionRecord) (s e : Nat) :
    Except String (List MissionRecord) :=
  .ok (yearFilterRecords rs s e)

/-- The data fed to the three charts of handler A. -/
structure Charts where
  pieTitle : String
  pieCounts : List (String × Nat)
  scatterTitle : String
  scatterRecords : List MissionRecord
  heatmap : HeatMatrix
deriving DecidableEq

/-- What handler A returns to Dash: either the three charts or the generic
error `html.Div` produced by the `except` branch. -/
inductive ChartsOut where
  | charts : Charts → ChartsOut
  | errorMessage : String → ChartsOut
deriving DecidableEq

/-- The callback `get_charts_by_country` of `dash_app.py`.  `dataset` embeds
the module global `data`; `minY`/`maxY` the globals
`min_allowed_year`/`max_allowed_year`.  `.error` models an exception
escaping the handler; `.ok (.errorMessage _)` the caught-and-converted
path of the `try/except`.  The source computes `pie_df` and `country_df` by
the same `Operator.str.contains` filter twice; the embedding computes it
once. -/
def get_charts_by_country (dataset : List MissionRecord) (minY maxY : Nat)
    (country : String) (years : Nat × Nat) : Except String ChartsOut :=
  let c := validate_country_input country
  let ys := validate_year_range minY maxY years.1 years.2
  match tryYearFilter dataset ys.1 ys.2 with
  | .error _ => .ok (.errorMessage "An error occurred during data manipulation.")
  | .ok year_df =>
    if c = "All Countries" then
      .ok (.charts
        { pieTitle := "Total Mission Outcomes"
          pieCounts := value_counts (year_df.map (fun r => r.outcome))
          scatterTitle := "Launch Date vs. Number of Launches in Total"
          scatterRecords := year_df
          heatmap := create_matrix_for_heatmap dataset year_df })
    else
      match seriesStrContainsFilter year_df c with
      | .error e => .error e
      | .ok country_df =>
        .ok (.charts
          { pieTitle := "Mission outcomes for " ++ c
            pieCounts := value_counts (country_df.map (fun r => r.outcome))
            scatterTitle := "Launch Date vs. Number of Launches for " ++ c
            scatterRecords := country_df
            heatmap := create_matrix_for_heatmap dataset country_df })

/-- The rows `choosen_fail` of `get_bar_chart`: failure rows whose `Outcome`
contains the (validated) category string. -/
def chosenFails (rs : List MissionRecord) (f : String) : List MissionRecord :=
  (failRecords rs).filter (fun r => optContains r.outcome f)

/-- The per-country dictionary `cd` of `get_bar_chart`, in the insertion
order of `allowed_countries` (Python dicts preserve it): each allow-listed
name — the sentinel included — mapped to the number of chosen rows whose
`Operator` contains that name. -/
def countryCounts (chosen : List MissionRecord) : List (String × Nat) :=
  allowed_countries.map
    (fun c => (c, (chosen.filter (fun r => optContains r.operator c)).length))

/-- How many allow-listed country names a record's `Operator` contains. -/
def countryMatchCount (r : MissionRecord) : Nat :=
  allowed_countries.countP (fun c => optContains r.operator c)

/-- The callback `get_bar_chart` of `dash_app.py`.  The validator raises
`IndexError` on an empty `allowed_fails`; the per-country loop raises the
pandas mask `ValueError` when a chosen row's `Operator` is missing (the
first loop iteration already evaluates such a mask, whatever the country);
both model as `.error`. -/
def get_bar_chart (rs : List MissionRecord) (entered : String) :
    Except String (List (String × Nat)) :=
  match validate_fail_input (allowed_fails rs) entered with
  | .error e => .error e
  | .ok f =>
    let chosen := chosenFails rs f
    if chosen.all (fun r => r.operator.isSome) then .ok (countryCounts chosen)
    else .error maskErrMsg

/-- Models `DataFrame.to_csv` on the normalized table: a deterministic
serialization of every row and every field of the full record list (the
byte-level layout of the pandas output is immaterial to the claims). -/
def to_csv (rs : List MissionRecord) : String :=
  let cell : Option String → String := fun v => v.getD ""
  let dcell : Option Date → String := fun v =>
    match v with
    | none => ""
    | some d =>
        toString d.year ++ "-" ++ toString d.month ++ "-" ++ toString d.day ++
          " " ++ toString d.hour ++ ":" ++ toString d.minute ++ ":" ++ toString d.second
  "Launch Date,Operator,Mission Type,Outcome,Additional Information\n" ++
    String.intercalate "\n"
      (rs.map (fun r =>
        dcell r.launchDate ++ "," ++ cell r.operator ++ "," ++ cell r.missionType ++
          "," ++ cell r.outcome ++ "," ++ cell r.additionalInfo))

/-- Models `DataFrame.to_json` on the normalized table: a second
deterministic full-table serialization, distinct in shape from the CSV
one. -/
def to_json (rs : List MissionRecord) : String :=
  let cell : Option String → String := fun v =>
    match v with
    | none => "null"
    | some s => "\x22" ++ s ++ "\x22"
  let dcell : Option Date → String := fun v =>
    match v with
    | none => "null"
    | some d => toString d.year ++ "." ++ toString d.month ++ "." ++ toString d.day
  "[" ++
    String.intercalate ","
      (rs.map (fun r =>
        "\x7bdate:" ++ dcell r.launchDate ++ ",op:" ++ cell r.operator ++
          ",type:" ++ cell r.missionType ++ ",outcome:" ++ cell r.outcome ++
          ",info:" ++ cell r.additionalInfo ++ "\x7d")) ++ "]"

/-- Models `DataFrame.to_excel` (via `openpyxl`) on the normalized table.
Unlike the csv and json writers, the workbook bytes are *not* a pure
function of the table: openpyxl's `DocumentProperties` stamps
`datetime.now()` into `docProps/core.xml` (created/modified) and every zip
archive entry carries a `time.localtime()` mtime, so the output depends on
the wall clock `now` (an invocation timestamp) as well as on the rows. -/
def to_excel (rs : List MissionRecord) (now : Nat) : String :=
  "xlsx\x00created:" ++ toString now ++ "\x00" ++ to_csv rs

/-- A file handed to `dcc.send_data_frame`: fixed filename plus content. -/
structure DownloadFile where
  filename : String
  content : String
deriving DecidableEq

/-- The callback `get_download` of `dash_app.py` (the unused `n_clicks`
trigger argument is omitted).  `dataset` embeds the module global `data`:
the handler closes over the full table and never sees the currently
displayed filtered view.  `now` is the wall clock at the moment of the
request, read only by the openpyxl workbook writer in the excel branch; the
csv and json branches ignore it.  A format outside the allow-list falls
through to `return None`. -/
def get_download (dataset : List MissionRecord) (fmt : String) (now : Nat) :
    Option DownloadFile :=
  if pyLower fmt ∈ allowed_file_formats then
    if pyLower fmt = "csv" then some ⟨"Moonlanding.csv", to_csv dataset⟩
    else if pyLower fmt = "json" then some ⟨"Moonlanding.json", to_json dataset⟩
    else if pyLower fmt = "excel" then some ⟨"Moonlanding.xlsx", to_excel dataset now⟩
    else none
  else none

/-- A small concrete table of mission rows (shaped like the Kaggle data
after normalization) used to instantiate the theorems. -/
def sampleData : List MissionRecord :=
  [⟨some ⟨1966, 2, 3, 0, 0, 0⟩, some "Soviet Union (USSR)", some "Lander", some "Success", none⟩,
   ⟨some ⟨1969, 7, 16, 0, 0, 0⟩, some "United States NASA", some "Crewed", some "Success", none⟩,
   ⟨some ⟨1970, 9, 12, 0, 0, 0⟩, some "Soviet Union (USSR)", some "Sample Return", some "Operator failure", none⟩,
   ⟨some ⟨1971, 7, 26, 0, 0, 0⟩, some "United States NASA", some "Crewed", some "Launch failure", none⟩,
   ⟨none, some "Japan ISAS", some "Orbiter", some "Success", none⟩]

/-- A one-row table whose failure record's Operator contains no allow-listed
country name. -/
def orphanData : List MissionRecord :=
  [⟨some ⟨1970, 1, 1, 0, 0, 0⟩, some "NASA", some "Orbiter", some "Launch failure", none⟩]

/-- A one-row table whose failure record's Operator contains the literal
sentinel string "All Countries". -/
def sentinelData : List MissionRecord :=
  [⟨some ⟨1971, 1, 1, 0, 0, 0⟩, some "Coalition of All Countries", some "Orbiter", some "Launch failure", none⟩]

/-- A one-row table with a missing Operator cell. -/
def missingOpData : List MissionRecord :=
  [⟨some ⟨1969, 7, 16, 0, 0, 0⟩, none, some "Orbiter", some "Success", none⟩]

/-- The record subset the specification describes for handler A ("filter by
year range first, then, if country ≠ All Countries, additionally filter by
substring match of country name against Operator"), with the year test
stated arithmetically on the normalized year.  Kept separate from the
source-derived `yearFilterRecords` so the two can be compared. -/
def specYearFiltered (rs : List MissionRecord) (s e : Nat) : List MissionRecord :=
  rs.filter (fun r =>
    match r.launchDate with
    | none => false
    | some d => decide (s ≤ d.year) && decide (d.year ≤ e))

/-- The spec-side description of handler A's final filtered set. -/
def specFilteredSet (rs : List MissionRecord) (country : String) (s e : Nat) :
    List MissionRecord :=
  let y := specYearFiltered rs s e
  if country = "All Countries" then y
  else y.filter (fun r => optContains r.operator country)

/-! ### Helper lemmas: digit strings and the source's string year comparison -/

theorem digit_lt_aux : ∀ m, m < 10 → ∀ n, n < 10 →
    ((Char.ofNat (48 + m) < Char.ofNat (48 + n)) ↔ m < n) := by decide

theorem digit_beq_aux : ∀ m, m < 10 → ∀ n, n < 10 →
    ((Char.ofNat (48 + m) == Char.ofNat (48 + n)) = true ↔ m = n) := by decide

theorem digitChar_lt (x y : Nat) : digitChar x < digitChar y ↔ x % 10 < y % 10 :=
  digit_lt_aux _ (Nat.mod_lt _ (by omega)) _ (Nat.mod_lt _ (by omega))

theorem digitChar_beq (x y : Nat) : (digitChar x == digitChar y) = true ↔ x % 10 = y % 10 :=
  digit_beq_aux _ (Nat.mod_lt _ (by omega)) _ (Nat.mod_lt _ (by omega))

/-- For four-digit years the source's Python string comparison of
`strftime("%Y")` values agrees with the numeric year comparison. -/
theorem pyStrLe_strftimeY (a b : Nat) (ha : a < 10000) (hb : b < 10000) :
    pyStrLe (strftimeY a) (strftimeY b) = true ↔ a ≤ b := by
  have da : a = 1000 * (a / 1000 % 10) + 100 * (a / 100 % 10) + 10 * (a / 10 % 10) + a % 10 := by
    omega
  have db : b = 1000 * (b / 1000 % 10) + 100 * (b / 100 % 10) + 10 * (b / 10 % 10) + b % 10 := by
    omega
  simp only [pyStrLe, strftimeY, charListLe, Bool.or_eq_true, Bool.and_eq_true,
    decide_eq_true_eq, digitChar_lt, digitChar_beq, and_true, true_and]
  generalize h3a : a / 1000 % 10 = x3 at da
  generalize h2a : a / 100 % 10 = x2 at da
  generalize h1a : a / 10 % 10 = x1 at da
  generalize h0a : a % 10 = x0 at da
  generalize h3b : b / 1000 % 10 = y3 at db
  generalize h2b : b / 100 % 10 = y2 at db
  generalize h1b : b / 10 % 10 = y1 at db
  generalize h0b : b % 10 = y0 at db
  have bx3 : x3 < 10 := by omega
  have bx2 : x2 < 10 := by omega
  have bx1 : x1 < 10 := by omega
  have bx0 : x0 < 10 := by omega
  have by3 : y3 < 10 := by omega
  have by2 : y2 < 10 := by omega
  have by1 : y1 < 10 := by omega
  have by0 : y0 < 10 := by omega
  clear h3a h2a h1a h0a h3b h2b h1b h0b ha hb
  omega

/-- The source's string-compared year filter coincides with the
arithmetic year-range filter of the specification whenever the bounds and
every present launch year are four-digit numbers. -/
theorem yearFilterRecords_eq_spec (rs : List MissionRecord) (s e : Nat)
    (hs : 1000 ≤ s ∧ s < 10000) (he : 1000 ≤ e ∧ e < 10000)
    (hd : ∀ r ∈ rs, ∀ d, r.launchDate = some d → 1000 ≤ d.year ∧ d.year < 10000) :
    yearFilterRecords rs s e = specYearFiltered rs s e := by
  unfold yearFilterRecords specYearFiltered
  apply List.filter_congr
  intro r hr
  cases hld : r.launchDate with
  | none => simp
  | some d =>
    have hy := hd r hr d hld
    rw [Bool.eq_iff_iff]
    simp only [Bool.and_eq_true, decide_eq_true_eq,
      pyStrLe_strftimeY s d.year (by omega) (by omega),
      pyStrLe_strftimeY d.year e (by omega) (by omega)]

/-! ### Helper lemmas: first-occurrence deduplication -/

theorem mem_uniqAux [DecidableEq α] (x : α) :
    ∀ (l seen : List α), x ∈ uniqAux seen l ↔ x ∈ l ∧ x ∉ seen := by
  intro l
  induction l with
  | nil => intro seen; simp [uniqAux]
  | cons a as ih =>
    intro seen
    by_cases h : a ∈ seen
    · rw [uniqAux, if_pos h, ih seen]
      simp only [List.mem_cons]
      constructor
      · rintro ⟨h1, h2⟩; exact ⟨Or.inr h1, h2⟩
      · rintro ⟨h1 | h1, h2⟩
        · exact absurd (h1 ▸ h) h2
        · exact ⟨h1, h2⟩
    · rw [uniqAux, if_neg h]
      simp only [List.mem_cons, ih (a :: seen), List.mem_cons, not_or]
      constructor
      · rintro (rfl | ⟨h1, h2, h3⟩)
        · exact ⟨Or.inl rfl, h⟩
        · exact ⟨Or.inr h1, h3⟩
      · rintro ⟨h1 | h1, h2⟩
        · exact Or.inl h1
        · by_cases hxa : x = a
          · exact Or.inl hxa
          · exact Or.inr ⟨h1, hxa, h2⟩

theorem nodup_uniqAux [DecidableEq α] :
    ∀ (l seen : List α), (uniqAux seen l).Nodup := by
  intro l
  induction l with
  | nil => intro seen; simp [uniqAux]
  | cons a as ih =>
    intro seen
    by_cases h : a ∈ seen
    · rw [uniqAux, if_pos h]; exact ih seen
    · rw [uniqAux, if_neg h, List.nodup_cons]
      refine ⟨fun hmem => ?_, ih (a :: seen)⟩
      exact ((mem_uniqAux a as (a :: seen)).1 hmem).2 (List.mem_cons_self a seen)

theorem mem_uniqFirst [DecidableEq α] (x : α) (l : List α) :
    x ∈ uniqFirst l ↔ x ∈ l := by
  rw [uniqFirst, mem_uniqAux]; simp

theorem nodup_uniqFirst [DecidableEq α] (l : List α) : (uniqFirst l).Nodup :=
  nodup_uniqAux l []

/-! ### Helper lemmas: sums over lists of counts -/

theorem sum_map_add_nat (l : List α) (f g : α → Nat) :
    (l.map (fun x => f x + g x)).sum = (l.map f).sum + (l.map g).sum := by
  induction l with
  | nil => simp
  | cons a t ih => simp only [List.map_cons, List.sum_cons, ih]; omega

theorem sum_map_zero_nat (l : List α) : (l.map (fun _ => (0 : Nat))).sum = 0 := by
  induction l with
  | nil => simp
  | cons a t ih => simp [ih]

theorem sum_if_zero [DecidableEq α] (L : List α) (x : α) (k : Nat) (hx : x ∉ L) :
    (L.map (fun y => if y = x then k else 0)).sum = 0 := by
  induction L with
  | nil => simp
  | cons a t ih =>
    simp only [List.mem_cons, not_or] at hx
    have hne : ¬ a = x := fun h => hx.1 h.symm
    simp only [List.map_cons, List.sum_cons, if_neg hne, ih hx.2]

theorem sum_if_single [DecidableEq α] (L : List α) (hnd : L.Nodup) (x : α)
    (hx : x ∈ L) (k : Nat) :
    (L.map (fun y => if y = x then k else 0)).sum = k := by
  induction L with
  | nil => cases hx
  | cons a t ih =>
    rw [List.nodup_cons] at hnd
    rcases List.mem_cons.1 hx with rfl | hx'
    · simp [sum_if_zero t x k hnd.1]
    · have hne : ¬ a = x := fun h => hnd.1 (h ▸ hx')
      simp only [List.map_cons, List.sum_cons, if_neg hne, ih hnd.2 hx', Nat.zero_add]

theorem countP_eq_sum_map (l : List α) (p : α → Bool) :
    l.countP p = (l.map (fun x => if p x then 1 else 0)).sum := by
  induction l with
  | nil => simp
  | cons a t ih =>
    simp only [List.countP_cons, List.map_cons, List.sum_cons, ih]
    omega

theorem sum_countP_comm (as : List α) (bs : List β) (p : α → β → Bool) :
    (as.map (fun a => bs.countP (fun b => p a b))).sum
      = (bs.map (fun b => as.countP (fun a => p a b))).sum := by
  induction as with
  | nil => simp [sum_map_zero_nat]
  | cons a t ih =>
    have hfun : (fun b => List.countP (fun x => p x b) (a :: t))
        = (fun b => List.countP (fun x => p x b) t + if p a b then 1 else 0) := by
      funext b; rw [List.countP_cons]
    simp only [List.map_cons, List.sum_cons, hfun, sum_map_add_nat, ← ih,
      countP_eq_sum_map bs (fun b => p a b)]
    omega

theorem length_le_sum_map (l : List α) (f : α → Nat) (h : ∀ r ∈ l, 1 ≤ f r) :
    l.length ≤ (l.map f).sum := by
  induction l with
  | nil => simp
  | cons a t ih =>
    have ha := h a (List.mem_cons_self a t)
    have ht := ih (fun r hr => h r (List.mem_cons_of_mem a hr))
    simp only [List.length_cons, List.map_cons, List.sum_cons]
    omega

theorem sum_map_eq_length (l : List α) (f : α → Nat) (h : ∀ r ∈ l, f r = 1) :
    (l.map f).sum = l.length := by
  induction l with
  | nil => simp
  | cons a t ih =>
    have ha := h a (List.mem_cons_self a t)
    have ht := ih (fun r hr => h r (List.mem_cons_of_mem a hr))
    simp only [List.length_cons, List.map_cons, List.sum_cons]
    omega

/-! ### Helper lemmas: the heatmap count grid -/

theorem pairCount_nil (t o : Option String) : pairCount [] t o = 0 := by
  cases t <;> cases o <;> simp [pairCount]

theorem pairCount_cons (r : MissionRecord) (df : List MissionRecord) (t o : Option String) :
    pairCount (r :: df) t o = pairCount df t o + pairCount [r] t o := by
  cases t <;> cases o <;> simp [pairCount, List.countP_cons]

theorem grid_single (r : MissionRecord) (rows cols : List (Option String))
    (hrnd : rows.Nodup) (hcnd : cols.Nodup)
    (hrm : r.missionType.isSome = true → r.missionType ∈ rows)
    (hcm : r.outcome.isSome = true → r.outcome ∈ cols) :
    (rows.map (fun t => (cols.map (fun o => pairCount [r] t o)).sum)).sum
      = if r.missionType.isSome && r.outcome.isSome then 1 else 0 := by
  cases hmt : r.missionType with
  | none =>
    have hz : ∀ t o : Option String, pairCount [r] t o = 0 := by
      intro t o
      cases t with
      | none => simp [pairCount]
      | some tv =>
        cases o with
        | none => simp [pairCount]
        | some ov => simp [pairCount, List.countP_cons, hmt]
    simp [hz, sum_map_zero_nat, hmt]
  | some a =>
    cases hoc : r.outcome with
    | none =>
      have hz : ∀ t o : Option String, pairCount [r] t o = 0 := by
        intro t o
        cases t with
        | none => simp [pairCount]
        | some tv =>
          cases o with
          | none => simp [pairCount]
          | some ov => simp [pairCount, List.countP_cons, hoc]
      simp [hz, sum_map_zero_nat, hoc]
    | some b =>
      have hma : (some a : Option String) ∈ rows := by
        rw [← hmt]; exact hrm (by simp [hmt])
      have hmb : (some b : Option String) ∈ cols := by
        rw [← hoc]; exact hcm (by simp [hoc])
      have hcell : ∀ t o : Option String,
          pairCount [r] t o = if t = some a then (if o = some b then 1 else 0) else 0 := by
        intro t o
        cases t with
        | none => simp [pairCount]
        | some tv =>
          cases o with
          | none => simp [pairCount]
          | some ov =>
            simp only [pairCount, List.countP_cons, List.countP_nil, hmt, hoc]
            rcases eq_or_ne tv a with rfl | h1
            · rcases eq_or_ne ov b with rfl | h2
              · simp
              · simp [h2, Ne.symm h2]
            · simp [h1, Ne.symm h1]
      have hrow : ∀ t : Option String,
          (cols.map (fun o => if t = some a then (if o = some b then 1 else 0) else 0)).sum
            = if t = some a then 1 else 0 := by
        intro t
        by_cases ht : t = some a
        · simp only [ht, if_pos rfl]
          exact sum_if_single cols hcnd (some b) hmb 1
        · simp [ht, sum_map_zero_nat]
      simp only [hcell, hrow]
      rw [sum_if_single rows hrnd (some a) hma 1]
      simp [hmt, hoc]

theorem grid_total (rows cols : List (Option String)) (hrnd : rows.Nodup)
    (hcnd : cols.Nodup) :
    ∀ df : List MissionRecord,
      (∀ r ∈ df, (r.missionType.isSome = true → r.missionType ∈ rows) ∧
        (r.outcome.isSome = true → r.outcome ∈ cols)) →
      (rows.map (fun t => (cols.map (fun o => pairCount df t o)).sum)).sum
        = df.countP (fun r => r.missionType.isSome && r.outcome.isSome) := by
  intro df
  induction df with
  | nil => intro _; simp [pairCount_nil, sum_map_zero_nat]
  | cons r df ih =>
    intro hmem
    have hr := hmem r (List.mem_cons_self r df)
    have hdf := fun x hx => hmem x (List.mem_cons_of_mem r hx)
    have hfun : (fun t => (cols.map (fun o => pairCount (r :: df) t o)).sum)
        = (fun t => (cols.map (fun o => pairCount df t o)).sum
            + (cols.map (fun o => pairCount [r] t o)).sum) := by
      funext t
      have h2 : (fun o => pairCount (r :: df) t o)
          = (fun o => pairCount df t o + pairCount [r] t o) :=
        funext (fun o => pairCount_cons r df t o)
      rw [h2, sum_map_add_nat]
    rw [hfun, sum_map_add_nat, ih hdf,
      grid_single r rows cols hrnd hcnd hr.1 hr.2, List.countP_cons]

theorem matrixTotal_create (globalRs df : List MissionRecord) :
    matrixTotal (create_matrix_for_heatmap globalRs df)
      = ((uniqFirst (globalRs.map (fun r => r.missionType))).map
          (fun t => ((uniqFirst (globalRs.map (fun r => r.outcome))).map
            (fun o => pairCount df t o)).sum)).sum := by
  simp only [matrixTotal, create_matrix_for_heatmap, List.map_map]
  rfl

/-! ### Helper lemmas: the date normalizer -/

theorem isLeap_sub100 (y : Nat) (h1 : 2023 < y) (h2 : y ≤ 2262)
    (h3 : isLeapYear y = true) : isLeapYear (y - 100) = true := by
  simp only [isLeapYear, Bool.and_eq_true, Bool.or_eq_true, beq_iff_eq,
    bne_iff_ne, ne_eq, decide_eq_true_eq] at h3 ⊢
  omega

/-- On a valid representable timestamp with year above the cutoff, the
normalizer performs exactly the century replacement: the `replace` call
cannot raise because the century-shifted date is again valid and
representable. -/
theorem validate_date_input_eq_replace (d : Date) (hv : d.isValid)
    (hb : d.inTsBounds) (hy : 2023 < d.year) :
    validate_date_input (some d) = some { d with year := d.year - 100 } := by
  have hy2262 : d.year ≤ 2262 := by rcases hb.2 with h | h <;> omega
  simp only [validate_date_input, tsReplaceYear, if_pos hy]
  have hval : ({ d with year := d.year - 100 } : Date).isValid := by
    obtain ⟨m1, m2, d1, d2, hh, hmi, hs⟩ := hv
    refine ⟨m1, m2, d1, ?_, hh, hmi, hs⟩
    show d.day ≤ daysInMonth (d.year - 100) d.month
    by_cases hm : d.month = 2
    · simp only [daysInMonth, if_pos hm] at d2 ⊢
      by_cases hl : isLeapYear d.year = true
      · rw [if_pos (isLeap_sub100 d.year hy hy2262 hl)]
        rw [if_pos hl] at d2
        exact d2
      · rw [if_neg hl] at d2
        by_cases hl2 : isLeapYear (d.year - 100) = true
        · rw [if_pos hl2]; omega
        · rw [if_neg hl2]; exact d2
    · simp only [daysInMonth, if_neg hm] at d2 ⊢
      exact d2
  have hbnd : ({ d with year := d.year - 100 } : Date).inTsBounds := by
    constructor
    · left; show 1677 < d.year - 100; omega
    · left; show d.year - 100 < 2262; omega
  rw [if_pos ⟨hval, hbnd⟩]

theorem validate_date_input_eq_self (d : Date) (hy : d.year ≤ 2023) :
    validate_date_input (some d) = some d := by
  simp only [validate_date_input]
  rw [if_neg (by omega)]

/-! ### The claims -/

/-- C2: the date normalizer is total on parse results: a failed parse maps
to the missing marker, a parsed year above 2023 maps to the same date with
the year decreased by 100 and every other component unchanged, and a parsed
year of at most 2023 maps to the parsed date unchanged.  The hypotheses say
the input is something `pd.to_datetime` can actually return: a valid
calendar date-time inside the representable `Timestamp` range. -/
theorem validate_date_input_c2 (d : Date) (hv : d.isValid) (hb : d.inTsBounds) :
    (2023 < d.year →
      validate_date_input (some d) = some { d with year := d.year - 100 }) ∧
    (d.year ≤ 2023 → validate_date_input (some d) = some d) ∧
    validate_date_input none = none :=
  ⟨fun hy => validate_date_input_eq_replace d hv hb hy,
   fun hy => validate_date_input_eq_self d hy, rfl⟩

/-- Witness for C2 at the concrete parse results 2069-07-20 (a two-digit
"69" mis-parse, century-corrected to 1969) and 1969-07-20 20:17:40
(returned unchanged). -/
theorem validate_date_input_c2_witness :
    validate_date_input (some ⟨2069, 7, 20, 0, 0, 0⟩) = some ⟨1969, 7, 20, 0, 0, 0⟩ ∧
    validate_date_input (some ⟨1969, 7, 20, 20, 17, 40⟩) = some ⟨1969, 7, 20, 20, 17, 40⟩ := by
  constructor
  · exact (validate_date_input_c2 ⟨2069, 7, 20, 0, 0, 0⟩ (by decide) (by decide)).1 (by decide)
  · exact (validate_date_input_c2 ⟨1969, 7, 20, 20, 17, 40⟩ (by decide) (by decide)).2.1 (by decide)

/-- C5 counterexample: the single, non-iterated century correction does not
bound the normalized year by the dataset's horizon for every possible parsed
year.  The parseable date 2150-06-01 normalizes to 2050-06-01, whose year
still exceeds 2023 (and hence any maximum year of a historical lunar-mission
dataset). -/
theorem validate_date_input_c5_counterexample :
    validate_date_input (some ⟨2150, 6, 1, 0, 0, 0⟩) = some ⟨2050, 6, 1, 0, 0, 0⟩ ∧
    2023 < (2050 : Nat) := by
  constructor
  · rfl
  · decide

/-- C5 (amended): for parsed years up to 2123 the normalized year is at most
2023, and the correction is a single subtraction — the output year is either
the parsed year or the parsed year minus exactly 100, never less.  For
parsed years in 2124..2262 the one subtraction leaves a year above 2023. -/
theorem validate_date_input_c5_amended (d : Date) (hv : d.isValid)
    (hb : d.inTsBounds) (hy : d.year ≤ 2123) :
    ∀ d', validate_date_input (some d) = some d' →
      d'.year ≤ 2023 ∧ (d'.year = d.year ∨ d'.year + 100 = d.year) := by
  intro d' h
  by_cases hcase : 2023 < d.year
  · rw [validate_date_input_eq_replace d hv hb hcase] at h
    injection h with h
    subst h
    constructor
    · show d.year - 100 ≤ 2023; omega
    · right; show d.year - 100 + 100 = d.year; omega
  · rw [validate_date_input_eq_self d (by omega)] at h
    injection h with h
    subst h
    exact ⟨by omega, Or.inl rfl⟩

/-- Witness for C5 (amended) at the parse result 2069-07-20. -/
theorem validate_date_input_c5_amended_witness :
    (⟨1969, 7, 20, 0, 0, 0⟩ : Date).year ≤ 2023 ∧
    ((⟨1969, 7, 20, 0, 0, 0⟩ : Date).year = (⟨2069, 7, 20, 0, 0, 0⟩ : Date).year ∨
      (⟨1969, 7, 20, 0, 0, 0⟩ : Date).year + 100 = (⟨2069, 7, 20, 0, 0, 0⟩ : Date).year) :=
  validate_date_input_c5_amended ⟨2069, 7, 20, 0, 0, 0⟩ (by decide) (by decide) (by decide)
    ⟨1969, 7, 20, 0, 0, 0⟩ (by decide)

/-- C8: the year-range validator is total: it returns the pair unchanged
when both bounds lie in the dataset's year range, returns the full range
when either bound lies outside it, and in every case returns one of those
two values — never a partial correction, never an exception. -/
theorem validate_year_range_c8 (minY maxY s e : Nat) :
    ((minY ≤ s ∧ s ≤ maxY ∧ minY ≤ e ∧ e ≤ maxY) →
      validate_year_range minY maxY s e = (s, e)) ∧
    (¬(minY ≤ s ∧ s ≤ maxY ∧ minY ≤ e ∧ e ≤ maxY) →
      validate_year_range minY maxY s e = (minY, maxY)) ∧
    (validate_year_range minY maxY s e = (s, e) ∨
      validate_year_range minY maxY s e = (minY, maxY)) := by
  refine ⟨fun h => ?_, fun h => ?_, ?_⟩
  · simp only [validate_year_range, if_pos h]
  · simp only [validate_year_range, if_neg h]
  · by_cases h : minY ≤ s ∧ s ≤ maxY ∧ minY ≤ e ∧ e ≤ maxY
    · left; simp only [validate_year_range, if_pos h]
    · right; simp only [validate_year_range, if_neg h]

/-- Witness for C8 with dataset range 1958..1976: in-range bounds pass
through, an out-of-range start replaces both bounds. -/
theorem validate_year_range_c8_witness :
    validate_year_range 1958 1976 1960 1970 = (1960, 1970) ∧
    validate_year_range 1958 1976 1900 1970 = (1958, 1976) :=
  ⟨(validate_year_range_c8 1958 1976 1960 1970).1 (by decide),
   (validate_year_range_c8 1958 1976 1900 1970).2.1 (by decide)⟩

/-- C9: the failure-category validator is total as long as the dataset
yields at least one failure prefix (which holds for the shipped dataset,
whose failure startup table is nonempty): a listed category is returned
unchanged, anything else falls back to the first prefix in dataset-encounter
order. -/
theorem validate_fail_input_c9 (rs : List MissionRecord) (v : String)
    (h : allowed_fails rs ≠ []) :
    (v ∈ allowed_fails rs → validate_fail_input (allowed_fails rs) v = .ok v) ∧
    (v ∉ allowed_fails rs →
      validate_fail_input (allowed_fails rs) v = .ok ((allowed_fails rs).headD "")) := by
  constructor
  · intro hv; simp only [validate_fail_input, if_pos hv]
  · intro hv
    simp only [validate_fail_input, if_neg hv]
    cases haf : allowed_fails rs with
    | nil => exact absurd haf h
    | cons f t => simp

/-- Witness for C9 on `sampleData`, whose failure prefixes in encounter
order are ["Operator", "Launch"] — not alphabetical order — so the fallback
for an unknown category is "Operator". -/
theorem validate_fail_input_c9_witness :
    allowed_fails sampleData = ["Operator", "Launch"] ∧
    validate_fail_input (allowed_fails sampleData) "Crash" = .ok "Operator" := by
  refine ⟨by decide, ?_⟩
  have h := (validate_fail_input_c9 sampleData "Crash" (by decide)).2 (by decide)
  rw [h]
  rfl

/-- C7 counterexample: exporting excel twice against the unchanged table at
two different wall-clock instants produces two downloadable files whose
bytes differ (the workbook embeds the creation timestamps), refuting the
claim that two exports of the same format yield identical output for every
supported format. -/
theorem get_download_c7_counterexample :
    get_download orphanData "excel" 0 ≠ get_download orphanData "excel" 1 ∧
    get_download orphanData "excel" 0 ≠ none ∧
    get_download orphanData "excel" 1 ≠ none := by
  refine ⟨?_, ?_, ?_⟩ <;> decide

/-- C7 (amended): the export handler serializes the entire unfiltered table
for each of the three allow-listed formats (compared case-insensitively) and
yields no output for any other format without raising; repeated csv and json
exports of the unchanged table are byte-identical (pure functions of the
table, independent of the clock `t1`/`t2`), but an excel export embeds the
invocation's wall-clock timestamps in the workbook, so repeated excel
exports are not byte-identical. -/
theorem get_download_c7_amended (ds : List MissionRecord) (fmt : String) (t1 t2 : Nat) :
    (pyLower fmt = "csv" →
      get_download ds fmt t1 = some ⟨"Moonlanding.csv", to_csv ds⟩) ∧
    (pyLower fmt = "json" →
      get_download ds fmt t1 = some ⟨"Moonlanding.json", to_json ds⟩) ∧
    (pyLower fmt = "excel" →
      get_download ds fmt t1 = some ⟨"Moonlanding.xlsx", to_excel ds t1⟩) ∧
    (pyLower fmt ∉ allowed_file_formats → get_download ds fmt t1 = none) ∧
    (pyLower fmt = "csv" ∨ pyLower fmt = "json" →
      get_download ds fmt t1 = get_download ds fmt t2) := by
  refine ⟨fun h => ?_, fun h => ?_, fun h => ?_, fun h => ?_, fun h => ?_⟩
  · simp [get_download, h, allowed_file_formats]
  · simp [get_download, h, allowed_file_formats]
  · simp [get_download, h, allowed_file_formats]
  · simp only [get_download]
    rw [if_neg h]
  · rcases h with h | h <;> simp [get_download, h, allowed_file_formats]

/-- Witness for C7 (amended): the default dropdown value "CSV" lower-cases
into an allowed format, downloads the full-table CSV, and does so
byte-identically at two different instants; the unlisted format "xml"
yields no output. -/
theorem get_download_c7_amended_witness :
    get_download sampleData "CSV" 0 = some ⟨"Moonlanding.csv", to_csv sampleData⟩ ∧
    get_download sampleData "xml" 0 = none ∧
    get_download sampleData "CSV" 0 = get_download sampleData "CSV" 99 :=
  ⟨(get_download_c7_amended sampleData "CSV" 0 0).1 (by decide),
   (get_download_c7_amended sampleData "xml" 0 0).2.2.2.1 (by decide),
   (get_download_c7_amended sampleData "CSV" 0 99).2.2.2.2 (Or.inl (by decide))⟩

/-! ### Helper lemmas: the failure bar chart -/

theorem get_bar_chart_ok (rs : List MissionRecord) (entered f : String)
    (hv : validate_fail_input (allowed_fails rs) entered = Except.ok f)
    (hop : (chosenFails rs f).all (fun r => r.operator.isSome) = true) :
    get_bar_chart rs entered = .ok (countryCounts (chosenFails rs f)) := by
  simp only [get_bar_chart, hv, hop, if_true]

theorem countryCounts_fst (chosen : List MissionRecord) :
    (countryCounts chosen).map Prod.fst = allowed_countries := by
  simp only [countryCounts, List.map_map]
  have h : (Prod.fst ∘ fun c => (c, (chosen.filter (fun r => optContains r.operator c)).length))
      = fun c : String => c := funext fun c => rfl
  rw [h]
  exact List.map_id' allowed_countries

theorem countryCounts_sum (chosen : List MissionRecord) :
    ((countryCounts chosen).map Prod.snd).sum = (chosen.map countryMatchCount).sum := by
  simp only [countryCounts, List.map_map]
  have h : (Prod.snd ∘ fun c => (c, (chosen.filter (fun r => optContains r.operator c)).length))
      = fun c => chosen.countP (fun r => optContains r.operator c) := by
    funext c
    simp [Function.comp, List.countP_eq_length_filter]
  rw [h, sum_countP_comm allowed_countries chosen (fun c r => optContains r.operator c)]
  rfl

/-- C6 counterexample: a failure record whose Operator ("NASA") contains no
allow-listed country name is counted by no bar, so the sum of the per-country
counts (0) is strictly below the number of matching failure records (1) —
the claimed inequality `sum ≥ count` fails on the code. -/
theorem get_bar_chart_c6_counterexample :
    (get_bar_chart orphanData "Launch").map (fun bars => (bars.map Prod.snd).sum)
      = .ok 0 ∧
    (chosenFails orphanData "Launch").length = 1 := by
  constructor
  · rfl
  · rfl

/-- C6 (amended): on a validated category whose chosen failure rows all
carry an Operator, the handler emits one bar per allow-listed country
(zero-count countries included) counting the rows whose Operator contains
that country name, and the sum of the counts equals the total number of
(record, country) substring matches.  Consequently `sum ≥ matching records`
holds when every matching record's Operator contains at least one
allow-listed name, with equality when each contains exactly one — an
Operator matching no name makes the sum fall short. -/
theorem get_bar_chart_c6_amended (rs : List MissionRecord) (entered f : String)
    (hv : validate_fail_input (allowed_fails rs) entered = Except.ok f)
    (hop : (chosenFails rs f).all (fun r => r.operator.isSome) = true) :
    get_bar_chart rs entered = .ok (countryCounts (chosenFails rs f)) ∧
    (countryCounts (chosenFails rs f)).map Prod.fst = allowed_countries ∧
    ((countryCounts (chosenFails rs f)).map Prod.snd).sum
      = ((chosenFails rs f).map countryMatchCount).sum ∧
    ((∀ r ∈ chosenFails rs f, 1 ≤ countryMatchCount r) →
      (chosenFails rs f).length ≤ ((countryCounts (chosenFails rs f)).map Prod.snd).sum) ∧
    ((∀ r ∈ chosenFails rs f, countryMatchCount r = 1) →
      ((countryCounts (chosenFails rs f)).map Prod.snd).sum = (chosenFails rs f).length) := by
  refine ⟨get_bar_chart_ok rs entered f hv hop, countryCounts_fst _, countryCounts_sum _,
    fun h1 => ?_, fun h1 => ?_⟩
  · rw [countryCounts_sum]
    exact length_le_sum_map _ _ h1
  · rw [countryCounts_sum]
    exact sum_map_eq_length _ _ h1

/-- Witness for C6 (amended) on `sampleData`: the single "Launch" failure
row's Operator "United States NASA" contains exactly one allow-listed name,
so the bar counts sum to exactly the number of matching records. -/
theorem get_bar_chart_c6_amended_witness :
    get_bar_chart sampleData "Launch"
      = .ok (countryCounts (chosenFails sampleData "Launch")) ∧
    ((countryCounts (chosenFails sampleData "Launch")).map Prod.snd).sum
      = (chosenFails sampleData "Launch").length := by
  have h := get_bar_chart_c6_amended sampleData "Launch" "Launch" (by rfl) (by rfl)
  exact ⟨h.1, h.2.2.2.2 (by decide)⟩

/-- C10: the bar chart always contains a bar labeled with the sentinel
"All Countries" (it is the head of the allow-list, hence the first bar),
and its height counts exactly the matching failure records whose Operator
contains the literal substring "All Countries". -/
theorem get_bar_chart_c10 (rs : List MissionRecord) (entered f : String)
    (hv : validate_fail_input (allowed_fails rs) entered = Except.ok f)
    (hop : (chosenFails rs f).all (fun r => r.operator.isSome) = true) :
    get_bar_chart rs entered = .ok (countryCounts (chosenFails rs f)) ∧
    (countryCounts (chosenFails rs f)).head?
      = some ("All Countries",
          ((chosenFails rs f).filter
            (fun r => optContains r.operator "All Countries")).length) := by
  refine ⟨get_bar_chart_ok rs entered f hv hop, ?_⟩
  simp [countryCounts, allowed_countries]

/-- Witness for C10 on `sentinelData`, whose failure row's Operator
"Coalition of All Countries" contains the sentinel literally: the first bar
is ("All Countries", 1). -/
theorem get_bar_chart_c10_witness :
    get_bar_chart sentinelData "Launch"
      = .ok (countryCounts (chosenFails sentinelData "Launch")) ∧
    (countryCounts (chosenFails sentinelData "Launch")).head?
      = some ("All Countries", 1) := by
  have h := get_bar_chart_c10 sentinelData "Launch" "Launch" (by rfl) (by rfl)
  refine ⟨h.1, ?_⟩
  rw [h.2]
  rfl

theorem getD_map_of_lt {α β : Type} (l : List α) (f : α → β) (i : Nat) (d1 : α)
    (d2 : β) (h : i < l.length) : (l.map f).getD i d2 = f (l.getD i d1) := by
  have h2 : i < (l.map f).length := by simpa using h
  rw [List.getD_eq_getElem _ _ h2, List.getD_eq_getElem _ _ h, List.getElem_map]

/-- C3: for every subset of the full table, the heatmap matrix keeps the row
vocabulary (distinct Mission Type values) and column vocabulary (distinct
Outcome values) of the *full* table — so its shape is filter-independent —
every cell counts the filtered records with that (type, outcome) pair (0 for
unobserved pairs), and the cells sum to the number of filtered records
carrying both a Mission Type and an Outcome. -/
theorem create_matrix_for_heatmap_c3 (dataset df : List MissionRecord)
    (hsub : ∀ r ∈ df, r ∈ dataset) :
    (∀ v, v ∈ (create_matrix_for_heatmap dataset df).rowLabels ↔
        v ∈ dataset.map (fun r => r.missionType)) ∧
    (∀ v, v ∈ (create_matrix_for_heatmap dataset df).colLabels ↔
        v ∈ dataset.map (fun r => r.outcome)) ∧
    (create_matrix_for_heatmap dataset df).rowLabels.Nodup ∧
    (create_matrix_for_heatmap dataset df).colLabels.Nodup ∧
    (∀ i j, i < (create_matrix_for_heatmap dataset df).rowLabels.length →
        j < (create_matrix_for_heatmap dataset df).colLabels.length →
        cellAt (create_matrix_for_heatmap dataset df) i j
          = pairCount df ((create_matrix_for_heatmap dataset df).rowLabels.getD i none)
              ((create_matrix_for_heatmap dataset df).colLabels.getD j none)) ∧
    matrixTotal (create_matrix_for_heatmap dataset df)
      = df.countP (fun r => r.missionType.isSome && r.outcome.isSome) := by
  refine ⟨fun v => mem_uniqFirst v _, fun v => mem_uniqFirst v _,
    nodup_uniqFirst _, nodup_uniqFirst _, ?_, ?_⟩
  · intro i j hi hj
    show ((((uniqFirst (dataset.map (fun r => r.missionType))).map
        (fun t => (uniqFirst (dataset.map (fun r => r.outcome))).map
          (fun o => pairCount df t o))).getD i []).getD j 0) = _
    have hi' : i < (uniqFirst (dataset.map (fun r => r.missionType))).length := hi
    have hj' : j < (uniqFirst (dataset.map (fun r => r.outcome))).length := hj
    rw [getD_map_of_lt _ _ i none [] hi', getD_map_of_lt _ _ j none 0 hj']
    rfl
  · rw [matrixTotal_create]
    apply grid_total _ _ (nodup_uniqFirst _) (nodup_uniqFirst _)
    intro r hr
    constructor
    · intro _
      exact (mem_uniqFirst _ _).2 (List.mem_map_of_mem (fun r => r.missionType) (hsub r hr))
    · intro _
      exact (mem_uniqFirst _ _).2 (List.mem_map_of_mem (fun r => r.outcome) (hsub r hr))

/-- Witness for C3: on `sampleData` filtered to United-States rows, the
matrix total equals the number of filtered rows with both fields present. -/
theorem create_matrix_for_heatmap_c3_witness :
    matrixTotal (create_matrix_for_heatmap sampleData
        (sampleData.filter (fun r => optContains r.operator "United States")))
      = (sampleData.filter (fun r => optContains r.operator "United States")).countP
          (fun r => r.missionType.isSome && r.outcome.isSome) :=
  (create_matrix_for_heatmap_c3 sampleData _
    (fun _ hr => List.mem_of_mem_filter hr)).2.2.2.2.2

/-- C1: with a validated country and year range (and the reachable-state
facts that slider years and normalized launch years are four-digit, and that
the rows surviving the year filter carry an Operator when a specific country
is chosen, so the pandas mask is boolean), the record set feeding all three
charts is exactly: rows whose launch year lies inclusively in the range
(rows with a missing Launch Date dropped), further restricted by the
Operator-substring match precisely when the country is not "All Countries";
the pie data is the Outcome value counts of exactly that set. -/
theorem get_charts_by_country_c1 (dataset : List MissionRecord) (minY maxY s e : Nat)
    (country : String) (hc : country ∈ allowed_countries)
    (hys : minY ≤ s ∧ s ≤ maxY ∧ minY ≤ e ∧ e ≤ maxY)
    (h4s : 1000 ≤ s ∧ s < 10000) (h4e : 1000 ≤ e ∧ e < 10000)
    (hd : dataset.all (fun r =>
        match r.launchDate with
        | none => true
        | some d => decide (1000 ≤ d.year) && decide (d.year < 10000)) = true)
    (hop : country ≠ "All Countries" →
      (specYearFiltered dataset s e).all (fun r => r.operator.isSome) = true) :
    ∃ ch : Charts,
      get_charts_by_country dataset minY maxY country (s, e) = .ok (.charts ch) ∧
      ch.pieCounts
        = value_counts ((specFilteredSet dataset country s e).map (fun r => r.outcome)) ∧
      ch.scatterRecords = specFilteredSet dataset country s e ∧
      ch.heatmap = create_matrix_for_heatmap dataset (specFilteredSet dataset country s e) := by
  have hd' : ∀ r ∈ dataset, ∀ d, r.launchDate = some d → 1000 ≤ d.year ∧ d.year < 10000 := by
    intro r hr d hld
    have h := List.all_eq_true.1 hd r hr
    rw [hld] at h
    simp only [Bool.and_eq_true, decide_eq_true_eq] at h
    exact h
  have hvc : validate_country_input country = country := by
    simp only [validate_country_input, if_pos hc]
  have hvy : validate_year_range minY maxY s e = (s, e) := by
    simp only [validate_year_range, if_pos hys]
  have hyf : yearFilterRecords dataset s e = specYearFiltered dataset s e :=
    yearFilterRecords_eq_spec dataset s e h4s h4e hd'
  by_cases hall : country = "All Countries"
  · subst hall
    have heq : get_charts_by_country dataset minY maxY "All Countries" (s, e)
        = .ok (.charts
          { pieTitle := "Total Mission Outcomes"
            pieCounts := value_counts ((specYearFiltered dataset s e).map (fun r => r.outcome))
            scatterTitle := "Launch Date vs. Number of Launches in Total"
            scatterRecords := specYearFiltered dataset s e
            heatmap := create_matrix_for_heatmap dataset (specYearFiltered dataset s e) }) := by
      simp [get_charts_by_country, tryYearFilter, hvc, hvy, hyf]
    refine ⟨_, heq, ?_, ?_, ?_⟩ <;> simp [specFilteredSet]
  · have hopA := hop hall
    have hfil : seriesStrContainsFilter (specYearFiltered dataset s e) country
        = .ok ((specYearFiltered dataset s e).filter
            (fun r => optContains r.operator country)) := by
      simp only [seriesStrContainsFilter, hopA, if_true]
    have heq : get_charts_by_country dataset minY maxY country (s, e)
        = .ok (.charts
          { pieTitle := "Mission outcomes for " ++ country
            pieCounts := value_counts (((specYearFiltered dataset s e).filter
              (fun r => optContains r.operator country)).map (fun r => r.outcome))
            scatterTitle := "Launch Date vs. Number of Launches for " ++ country
            scatterRecords := (specYearFiltered dataset s e).filter
              (fun r => optContains r.operator country)
            heatmap := create_matrix_for_heatmap dataset
              ((specYearFiltered dataset s e).filter
                (fun r => optContains r.operator country)) }) := by
      simp [get_charts_by_country, tryYearFilter, hvc, hvy, hyf, if_neg hall, hfil]
    refine ⟨_, heq, ?_, ?_, ?_⟩ <;> simp [specFilteredSet, hall]

/-- Witness for C1, echoing the spec scenario: `sampleData` filtered to
country "United States" and years 1969..1972. -/
theorem get_charts_by_country_c1_witness :
    ∃ ch : Charts,
      get_charts_by_country sampleData 1966 1976 "United States" (1969, 1972)
        = .ok (.charts ch) ∧
      ch.pieCounts
        = value_counts ((specFilteredSet sampleData "United States" 1969 1972).map
            (fun r => r.outcome)) ∧
      ch.scatterRecords = specFilteredSet sampleData "United States" 1969 1972 ∧
      ch.heatmap = create_matrix_for_heatmap sampleData
        (specFilteredSet sampleData "United States" 1969 1972) :=
  get_charts_by_country_c1 sampleData 1966 1976 1969 1972 "United States"
    (by decide) (by decide) (by decide) (by decide) (by decide) (fun _ => by decide)

/-- C4 counterexample: on a table with one row whose Operator is missing,
selecting the validated country "United States" in a validated year range
makes the country-filter step raise the pandas mask `ValueError`, and the
exception escapes the handler (`.error`) instead of being converted into
the generic error message — the `try/except` guards only the year-filter
step, so the claim of handler-wide catching is false. -/
theorem get_charts_by_country_c4_counterexample :
    get_charts_by_country missingOpData 1969 1969 "United States" (1969, 1969)
      = .error maskErrMsg := rfl

/-- C4 (amended): only the year-range filtering step is wrapped in
`try/except`; an error raised later is not caught.  Exactly characterized:
the handler lets an exception escape if and only if the validated country is
not "All Countries" and the year-filtered rows contain a missing Operator
(the pandas mask error), in which case the escaping error is the mask
`ValueError` rather than the generic message. -/
theorem get_charts_by_country_c4_amended (dataset : List MissionRecord)
    (minY maxY : Nat) (country : String) (years : Nat × Nat) (msg : String) :
    get_charts_by_country dataset minY maxY country years = .error msg ↔
      (validate_country_input country ≠ "All Countries" ∧ msg = maskErrMsg ∧
        (yearFilterRecords dataset (validate_year_range minY maxY years.1 years.2).1
            (validate_year_range minY maxY years.1 years.2).2).all
              (fun r => r.operator.isSome) = false) := by
  simp only [get_charts_by_country, tryYearFilter, seriesStrContainsFilter]
  by_cases hall : validate_country_input country = "All Countries"
  · simp [hall]
  · rw [if_neg hall]
    by_cases ha : (yearFilterRecords dataset (validate_year_range minY maxY years.1 years.2).1
        (validate_year_range minY maxY years.1 years.2).2).all
          (fun r => r.operator.isSome) = true
    · simp [ha, hall]
    · have ha' : (yearFilterRecords dataset (validate_year_range minY maxY years.1 years.2).1
          (validate_year_range minY maxY years.1 years.2).2).all
            (fun r => r.operator.isSome) = false := by
        rcases Bool.eq_false_or_eq_true ((yearFilterRecords dataset
          (validate_year_range minY maxY years.1 years.2).1
          (validate_year_range minY maxY years.1 years.2).2).all
            (fun r => r.operator.isSome)) with h | h
        · exact absurd h ha
        · exact h

      simp [ha', hall, eq_comm]

end MoonDash

